import Mathlib

/-!
Verification of the inbox-negotiator negotiation core.

The TypeScript source is shallowly embedded: JavaScript numbers are
modelled as exact rationals (every quantity the claims touch is money
arithmetic whose double-precision evaluation is exact or, for the
present-value sum, agrees with the exact value far beyond the displayed
two decimals), strings as Lean `String`s, and JS `undefined`/missing
fields as `Option`.  JS truthiness tests (`if (x)`, `x || d`) are
modelled explicitly: `0`, `""` and `undefined` are falsy.
-/

/- Rational arithmetic must evaluate inside `decide` proofs, so the
irreducibility guard on the core operations is lifted. -/
attribute [local semireducible] Rat.add Rat.sub Rat.mul Rat.inv Rat.ofScientific

/- ## Generic string and character helpers -/

/-- Whitespace as used by the regex class `\s` (modelled as the ASCII
whitespace characters, which are the only ones the repository's texts use). -/
def isSpaceChar (c : Char) : Bool := c.isWhitespace

/-- `startsWithList h n` is true when list `h` begins with list `n`. -/
def startsWithList : List Char → List Char → Bool
  | _, [] => true
  | [], _ :: _ => false
  | a :: as, b :: bs => a == b && startsWithList as bs

/-- Substring containment on character lists. -/
def containsList : List Char → List Char → Bool
  | [], n => n.isEmpty
  | h :: t, n => startsWithList (h :: t) n || containsList t n

def toLowerList (cs : List Char) : List Char := cs.map Char.toLower

def toUpperList (cs : List Char) : List Char := cs.map Char.toUpper

/-- Case-insensitive substring test, as a JS `lowerBody.includes(pat)` or a
`/pat/i` regex test on a literal word. -/
def containsCI (text pat : String) : Bool :=
  containsList (toLowerList text.data) (toLowerList pat.data)

/-- Case-insensitive prefix test. -/
def startsWithCI (cs : List Char) (pat : String) : Bool :=
  startsWithList (toLowerList cs) (toLowerList pat.data)

/-- JavaScript `String.prototype.trim`. -/
def trimList (cs : List Char) : List Char :=
  ((cs.dropWhile isSpaceChar).reverse.dropWhile isSpaceChar).reverse

/-- Split a character list on a separator character (JS `split(sep)`). -/
def splitOnCharAux (sep : Char) : List Char → List Char → List (List Char)
  | [], acc => [acc.reverse]
  | c :: cs, acc =>
    if c == sep then acc.reverse :: splitOnCharAux sep cs []
    else splitOnCharAux sep cs (c :: acc)

def splitOnChar (sep : Char) (cs : List Char) : List (List Char) :=
  splitOnCharAux sep cs []

/-- First value bound to a key in an association list (a JS object's own
property; keys in an object literal are unique). -/
def assocLookup (key : String) : List (String × String) → Option String
  | [] => none
  | (k, v) :: rest => if k = key then some v else assocLookup key rest

/- ## JavaScript numeric formatting -/

/-- JavaScript `Math.round`: round half toward positive infinity. -/
def jsRound (q : ℚ) : ℤ := Int.floor (q + 1/2)

def padZeros (len : ℕ) (s : String) : String :=
  if s.length < len then String.mk (List.replicate (len - s.length) '0') ++ s
  else s

/-- JavaScript `Number.prototype.toFixed(f)` on an exact rational:
the integer `n` with `n / 10^f` closest to the value, the larger one on
ties, rendered with `f` fractional digits. -/
def toFixedQ (f : ℕ) (q : ℚ) : String :=
  let n : ℤ := jsRound (q * (10 : ℚ) ^ f)
  let sign := if n < 0 then "-" else ""
  let m := n.natAbs
  if f = 0 then sign ++ toString m
  else sign ++ toString (m / 10 ^ f) ++ "." ++ padZeros f (toString (m % 10 ^ f))

/-- Fractional decimal digits of `q ∈ [0,1)`, up to `fuel` digits.
Exact for terminating decimals; the calculator only interpolates such
values into strings. -/
def decDigits : ℕ → ℚ → String
  | 0, _ => ""
  | fuel + 1, q =>
    if q = 0 then ""
    else
      let d : ℤ := Int.floor (q * 10)
      toString d.natAbs ++ decDigits fuel (q * 10 - (d : ℚ))

/-- Decimal rendering of a rational as JavaScript template-literal
interpolation prints a number: integers without a fractional part,
terminating decimals exactly (non-terminating expansions, which never
arise in the interpolated values, are truncated at 20 digits). -/
def jsNumToString (q : ℚ) : String :=
  let a := if q < 0 then -q else q
  let i : ℕ := (Int.floor a).natAbs
  let r : ℚ := a - (Int.floor a : ℚ)
  let mag := if r = 0 then toString i else toString i ++ "." ++ decDigits 20 r
  (if q < 0 then "-" else "") ++ mag

/- ## JavaScript truthiness on optional values -/

/-- Truthiness of an optional number: missing and `0` are falsy. -/
def truthyQ : Option ℚ → Bool
  | none => false
  | some x => x != 0

/-- Truthiness of an optional natural count. -/
def truthyN : Option ℕ → Bool
  | none => false
  | some n => n != 0

/-- Truthiness of an optional string: missing and `""` are falsy. -/
def truthyS : Option String → Bool
  | none => false
  | some s => s != ""

/-- JS `x || d` on an optional number read as a natural counter. -/
def jsOrNat (o : Option ℕ) (d : ℕ) : ℕ :=
  match o with
  | none => d
  | some 0 => d
  | some (n + 1) => n + 1

/-- JS `x || d` on an optional string. -/
def jsOrStr (o : Option String) (d : String) : String :=
  match o with
  | none => d
  | some s => if s = "" then d else s

/- ## Data model of `analyze-response` (src/supabase/functions/analyze-response/index.ts) -/

/-- `intent` of `responseAnalysisSchema`. -/
inductive Intent
  | acceptance | rejection | counter_offer | request_info | unclear
deriving DecidableEq, Repr

/-- `sentiment` of `responseAnalysisSchema`. -/
inductive Sentiment
  | positive | negative | neutral
deriving DecidableEq, Repr

/-- `suggestedNextAction` of `responseAnalysisSchema`. -/
inductive NextAction
  | accept_offer | send_counter | request_clarification | escalate_to_user | mark_settled
deriving DecidableEq, Repr

/-- The wire-stable debt status strings. -/
inductive DebtStatus
  | received | negotiating | approved | sent | awaiting_response | counter_negotiating
  | requires_manual_review | accepted | rejected | settled | failed | opted_out
deriving DecidableEq, Repr

/-- `extractedTerms.paymentTerms` of `responseAnalysisSchema`. -/
structure PaymentTerms where
  monthlyAmount : Option ℚ
  numberOfPayments : Option ℕ
  totalAmount : Option ℚ
  interestRate : Option ℚ
  paymentFrequency : Option String
deriving DecidableEq, Repr

/-- `extractedTerms` of `responseAnalysisSchema`. -/
structure ExtractedTerms where
  proposedAmount : Option ℚ
  proposedPaymentPlan : Option String
  paymentTerms : Option PaymentTerms
  deadline : Option String
  conditions : List String
deriving DecidableEq, Repr

/-- A classification result satisfying `responseAnalysisSchema`. -/
structure ResponseAnalysis where
  intent : Intent
  sentiment : Sentiment
  confidence : ℚ
  extractedTerms : ExtractedTerms
  reasoning : String
  suggestedNextAction : NextAction
  requiresUserReview : Bool
deriving DecidableEq, Repr

/-- A debt row as read by `analyze-response`: the columns it touches plus the
metadata fields it dereferences (`metadata.prospectedSavings.amount`,
`metadata.toEmail`, `metadata.fromEmail`). -/
structure Debt where
  id : String
  amount : ℚ
  status : DebtStatus
  negotiation_round : Option ℕ
  conversation_count : Option ℕ
  actual_savings : Option ℚ
  prospectedSavingsAmount : Option ℚ
  metaToEmail : Option String
  metaFromEmail : Option String
deriving DecidableEq, Repr

/- ## Financial outcome calculator (`calculateFinancialOutcome`) -/

/-- The object `calculateTimeValueBenefit` returns: three `toFixed(2)` strings. -/
structure TimeValue where
  presentValueOfPayments : String
  timeValueBenefit : String
  effectiveDiscount : String
deriving DecidableEq, Repr

/-- The loop `for (let i = 1; i <= months; i++) presentValue += monthlyPayment / Math.pow(1 + monthlyRate, i)`
with `monthlyRate = 0.05 / 12`, as an exact rational sum. -/
def presentValue (monthlyPayment : ℚ) : ℕ → ℚ
  | 0 => 0
  | n + 1 => presentValue monthlyPayment n + monthlyPayment / (1 + 5/1200) ^ (n + 1)

/-- `calculateTimeValueBenefit(originalAmount, monthlyPayment, months)`. -/
def calculateTimeValueBenefit (originalAmount monthlyPayment : ℚ) (months : ℕ) : TimeValue :=
  let pv := presentValue monthlyPayment months
  let tvb := originalAmount - pv
  { presentValueOfPayments := toFixedQ 2 pv
    timeValueBenefit := toFixedQ 2 tvb
    effectiveDiscount := toFixedQ 2 (tvb / originalAmount * 100) }

/-- The `paymentStructure` object. -/
structure PaymentStructure where
  type : String
  monthlyAmount : Option ℚ
  numberOfPayments : Option ℕ
  totalAmount : ℚ
  frequency : String
  interestRate : ℚ
deriving DecidableEq, Repr

/-- The `financialBenefit` object; the source assigns it one of three distinct
shapes, so it is a sum of the three record shapes. -/
inductive FinancialBenefit
  /-- `type: "payment_restructuring"` with nested `cashFlowRelief` and
  `timeValueBenefit` (the object built inside the `paymentTerms` branch). -/
  | restructuringDetail (principalReduction monthlyReduction : ℚ)
      (extendedTermMonths : ℕ) (totalCashFlowBenefit : ℚ) (timeValue : TimeValue)
  /-- `type: "principal_reduction"` with `amount`, `percentage` (a `toFixed(2)`
  string) and `description` (a `toFixed(1)` string). -/
  | principalReduction (amount : ℚ) (percentage description : String)
  /-- `type: "payment_restructuring"` summary built in the
  `else if (paymentStructure && paymentStructure.monthlyAmount)` branch. -/
  | restructuringSummary (monthlyReduction : ℚ) (extendedTermMonths : Option ℕ)
      (description cashFlowBenefit : String)
deriving DecidableEq, Repr

/-- The value `calculateFinancialOutcome` returns. -/
structure FinancialOutcome where
  actualSavings : ℚ
  acceptedAmount : ℚ
  paymentStructure : Option PaymentStructure
  financialBenefit : Option FinancialBenefit
  originalAmount : ℚ
deriving DecidableEq, Repr

/-- The `financialBenefit` first computed inside the payment-terms branch when
`terms.monthlyAmount && terms.numberOfPayments` is truthy (later overwritten
by the `actualSavings`-driven chain). -/
def restructuringDetailBenefit (originalAmount : ℚ) (terms : PaymentTerms) :
    Option FinancialBenefit :=
  if truthyQ terms.monthlyAmount && truthyN terms.numberOfPayments then
    let ma := terms.monthlyAmount.getD 0
    let n := terms.numberOfPayments.getD 0
    let totalPayments := ma * (n : ℚ)
    some (.restructuringDetail (max 0 (originalAmount - totalPayments))
      (originalAmount - ma) n ((originalAmount - ma) * (n : ℚ))
      (calculateTimeValueBenefit originalAmount ma n))
  else none

/-- The summary `description` string of the overwrite branch. -/
def summaryDescription (ma : ℚ) (n : Option ℕ) : String :=
  "Payment restructured to $" ++ jsNumToString ma ++ "/month over " ++
    (match n with | some k => toString k | none => "undefined") ++ " months"

/-- The summary `cashFlowBenefit` string of the overwrite branch. -/
def summaryCashFlow (monthlyReduction : ℚ) : String :=
  if monthlyReduction > 0 then
    "$" ++ jsNumToString monthlyReduction ++ "/month cash flow relief"
  else "Extended payment terms"

/-- The `acceptedAmount` resolution chain at the top of
`calculateFinancialOutcome`: explicit flat amount, else plan total, else
`original − metadata.prospectedSavings.amount`, else the original amount. -/
def acceptedAmountOf (debt : Debt) (analysis : ResponseAnalysis) : ℚ :=
  if truthyQ analysis.extractedTerms.proposedAmount then
    analysis.extractedTerms.proposedAmount.getD 0
  else if truthyQ (analysis.extractedTerms.paymentTerms.bind PaymentTerms.totalAmount) then
    (analysis.extractedTerms.paymentTerms.bind PaymentTerms.totalAmount).getD 0
  else if truthyQ debt.prospectedSavingsAmount then
    debt.amount - debt.prospectedSavingsAmount.getD 0
  else debt.amount

/-- `calculateFinancialOutcome(debt, analysis)`.  JS `||` fallbacks and
truthiness tests are explicit; `analysis.extractedTerms?.x` chains become
`Option` reads. -/
def calculateFinancialOutcome (debt : Debt) (analysis : ResponseAnalysis) :
    FinancialOutcome :=
  let originalAmount := debt.amount
  let acceptedAmount := acceptedAmountOf debt analysis
  let paymentStructure : Option PaymentStructure :=
    match analysis.extractedTerms.paymentTerms with
    | none => none
    | some terms =>
      some { type := "installment_plan"
             monthlyAmount := terms.monthlyAmount
             numberOfPayments := terms.numberOfPayments
             totalAmount := if truthyQ terms.totalAmount then terms.totalAmount.getD 0
                            else acceptedAmount
             frequency := jsOrStr terms.paymentFrequency "monthly"
             interestRate := if truthyQ terms.interestRate then terms.interestRate.getD 0
                             else 0 }
  let financialBenefit0 : Option FinancialBenefit :=
    match analysis.extractedTerms.paymentTerms with
    | none => none
    | some terms => restructuringDetailBenefit originalAmount terms
  let actualSavings := max 0 (originalAmount - acceptedAmount)
  let financialBenefit : Option FinancialBenefit :=
    if actualSavings > 0 then
      some (.principalReduction actualSavings
        (toFixedQ 2 (actualSavings / originalAmount * 100))
        (toFixedQ 1 (actualSavings / originalAmount * 100) ++ "% principal reduction"))
    else
      match paymentStructure with
      | some ps =>
        if truthyQ ps.monthlyAmount then
          some (.restructuringSummary (originalAmount - ps.monthlyAmount.getD 0)
            ps.numberOfPayments
            (summaryDescription (ps.monthlyAmount.getD 0) ps.numberOfPayments)
            (summaryCashFlow (originalAmount - ps.monthlyAmount.getD 0)))
        else financialBenefit0
      | none => financialBenefit0
  { actualSavings := actualSavings
    acceptedAmount := acceptedAmount
    paymentStructure := paymentStructure
    financialBenefit := financialBenefit
    originalAmount := originalAmount }

/- ## Fallback analysis (`getFallbackAnalysis` and its `extractFinancialTerms`) -/

/-- Greedy `\d+` at the head of a list: digits taken and the remainder. -/
def takeDigits (cs : List Char) : List Char × List Char :=
  (cs.takeWhile Char.isDigit, cs.dropWhile Char.isDigit)

/-- Greedy `(?:,\d{3})*`: consumes comma groups, returning the digits (the
commas are dropped exactly as `match.replace(/[$,]/g, "")` drops them)
and the remainder. -/
def commaGroups : List Char → List Char × List Char
  | ',' :: a :: b :: c :: rest =>
    if a.isDigit && b.isDigit && c.isDigit then
      let p := commaGroups rest
      (a :: b :: c :: p.1, p.2)
    else ([], ',' :: a :: b :: c :: rest)
  | cs => ([], cs)

/-- Greedy `(?:\.\d{2})?`: the two fractional digits, if present, and the
remainder. -/
def optDecimals : List Char → List Char × List Char
  | '.' :: a :: b :: rest =>
    if a.isDigit && b.isDigit then ([a, b], rest) else ([], '.' :: a :: b :: rest)
  | cs => ([], cs)

/-- Numeric value of digit lists: integer digits plus an optional exactly-
two-digit fraction (the shape `parseFloat` receives after comma stripping). -/
def ratOfDigits (intPart fracPart : List Char) : ℚ :=
  (Nat.ofDigits 10 ((intPart ++ fracPart).map (fun c => c.toNat - '0'.toNat)).reverse : ℚ) /
    (10 : ℚ) ^ fracPart.length

theorem dropWhile_length_le (p : Char → Bool) :
    ∀ l : List Char, (l.dropWhile p).length ≤ l.length := by
  intro l
  induction l with
  | nil => simp [List.dropWhile]
  | cons c cs ih =>
    simp only [List.dropWhile]
    cases p c
    · simp
    · simp only [List.length_cons]
      omega

theorem commaGroups_snd_length_le : ∀ l : List Char, (commaGroups l).2.length ≤ l.length := by
  intro l
  induction l using commaGroups.induct with
  | case1 a b c rest h ih =>
    simp only [commaGroups, if_pos h, List.length_cons]
    omega
  | case2 a b c rest h =>
    simp only [commaGroups, if_neg h]
    exact le_rfl
  | case3 cs h =>
    rw [commaGroups.eq_def]
    split
    · rename_i a b c rest
      exact ((h _ _ _ _ rfl)).elim
    · simp

theorem optDecimals_snd_length_le : ∀ l : List Char, (optDecimals l).2.length ≤ l.length := by
  intro l
  rw [optDecimals.eq_def]
  split
  · split
    · simp only [List.length_cons]
      omega
    · simp
  · simp

/-- All matches of `/\$(\d+(?:,\d{3})*(?:\.\d{2})?)/g` over the text, as the
values `parseFloat(match.replace(/[$,]/g, ""))` produces, in order.  The
pattern needs no backtracking: no continuation of a greedy piece can start
with a digit, a comma group, or a decimal point.  The recursion is driven
by a fuel argument so that it is structural (and so evaluates inside the
kernel); every step consumes at least one character, so fuel equal to the
input length is always sufficient and the fuel-exhausted branch is never
reached from `dollarScan`. -/
def dollarScanF : ℕ → List Char → List ℚ
  | 0, _ => []
  | _ + 1, [] => []
  | fuel + 1, c :: rest =>
    if c = '$' then
      match takeDigits rest with
      | ([], _) => dollarScanF fuel rest
      | (d :: ds, r1) =>
        let p2 := commaGroups r1
        let p3 := optDecimals p2.2
        ratOfDigits ((d :: ds) ++ p2.1) p3.1 :: dollarScanF fuel p3.2
    else dollarScanF fuel rest

def dollarScan (cs : List Char) : List ℚ := dollarScanF cs.length cs

/-- Each `dollarScanF` step recurses on a strict suffix, so any fuel of at
least the list length computes the same result; this discharges the
fuel-exhausted branch. -/
theorem dollarScanF_fuel (fuel fuel2 : ℕ) (cs : List Char)
    (h : cs.length ≤ fuel) (h2 : cs.length ≤ fuel2) :
    dollarScanF fuel cs = dollarScanF fuel2 cs := by
  induction fuel using Nat.strong_induction_on generalizing fuel2 cs with
  | _ fuel ih =>
    match fuel, fuel2, cs with
    | 0, f2, cs =>
      cases cs with
      | nil => cases f2 <;> rfl
      | cons c rest => simp at h
    | _ + 1, 0, cs =>
      have hnil : cs = [] := by
        cases cs
        · rfl
        · simp at h2
      subst hnil
      rw [dollarScanF.eq_def]
      rfl
    | f + 1, f2 + 1, [] => rfl
    | f + 1, f2 + 1, c :: rest =>
      simp only [dollarScanF]
      have hr : rest.length ≤ f := by simp at h; omega
      have hr2 : rest.length ≤ f2 := by simp at h2; omega
      split
      · split
        · exact ih f (by omega) f2 rest hr hr2
        · rename_i heq
          have hlen : (takeDigits rest).2.length ≤ rest.length := by
            rw [takeDigits]
            exact dropWhile_length_le _ rest
          have h3 := commaGroups_snd_length_le (takeDigits rest).2
          have h4 := optDecimals_snd_length_le (commaGroups ((takeDigits rest).2)).2
          rw [heq] at hlen h3 h4
          dsimp only at hlen h3 h4
          rw [ih f (by omega) f2 _ (by omega) (by omega)]
      · exact ih f (by omega) f2 rest hr hr2

/-- A number token `\d+(?:,\d{3})*(?:\.\d{2})?` at the head of the list:
its `parseFloat` value (after comma stripping) and the remainder.  Greedy
matching is exact here: no continuation can begin with a digit, a comma
group or a two-digit decimal. -/
def matchNumAt (cs : List Char) : Option (ℚ × List Char) :=
  match takeDigits cs with
  | ([], _) => none
  | (d :: ds, r1) =>
    let p2 := commaGroups r1
    let p3 := optDecimals p2.2
    some (ratOfDigits ((d :: ds) ++ p2.1) p3.1, p3.2)

/-- The suffix `\s*(?:per month|\/month|monthly)` (case-insensitive). -/
def monthSuffix (cs : List Char) : Bool :=
  let r := cs.dropWhile isSpaceChar
  startsWithCI r "per month" || startsWithCI r "/month" || startsWithCI r "monthly"

/-- One attempt of `/\$?(\d+(?:,\d{3})*(?:\.\d{2})?)\s*(?:per month|\/month|monthly)/i`
at a fixed position.  When a `$` is present the optional `\$?` consumes it;
retrying with `\$?` empty would put `\d+` on the `$` and fail, so no
backtracking case remains. -/
def monthlyTryAt (cs : List Char) : Option ℚ :=
  let core := fun (l : List Char) =>
    match matchNumAt l with
    | some (v, r) => if monthSuffix r then some v else none
    | none => none
  match cs with
  | '$' :: rest => core rest
  | _ => core cs

/-- Leftmost match of the monthly-payment pattern (`text.match(...)` without
`/g`): try each start position left to right. -/
def monthlyScan : List Char → Option ℚ
  | [] => none
  | c :: rest =>
    match monthlyTryAt (c :: rest) with
    | some v => some v
    | none => monthlyScan rest

/-- One attempt of `/(\d+)\s*(?:months?|payments?|installments?)/i` at a fixed
position; the capture is `parseInt` of the digits. -/
def paymentsTryAt (cs : List Char) : Option ℕ :=
  match takeDigits cs with
  | ([], _) => none
  | (d :: ds, r1) =>
    let r := r1.dropWhile isSpaceChar
    if startsWithCI r "month" || startsWithCI r "payment" || startsWithCI r "installment" then
      some (Nat.ofDigits 10 (((d :: ds).map (fun c => c.toNat - '0'.toNat)).reverse))
    else none

/-- Leftmost match of the payments-count pattern. -/
def paymentsScan : List Char → Option ℕ
  | [] => none
  | c :: rest =>
    match paymentsTryAt (c :: rest) with
    | some v => some v
    | none => paymentsScan rest

/-- The continuation `\s*(?:of\s*)?\$?(num)` of the total-amount pattern,
including the backtracking step where the optional `of\s*` is given up
when the number fails to follow it. -/
def totalCont (cs : List Char) : Option ℚ :=
  let afterWs := cs.dropWhile isSpaceChar
  let tryNum := fun (l : List Char) =>
    match l with
    | '$' :: r => (matchNumAt r).map Prod.fst
    | _ => (matchNumAt l).map Prod.fst
  if startsWithCI afterWs "of" then
    match tryNum ((afterWs.drop 2).dropWhile isSpaceChar) with
    | some v => some v
    | none => tryNum afterWs
  else tryNum afterWs

/-- One attempt of
`/(?:total|totaling|total amount)\s*(?:of\s*)?\$?(\d+(?:,\d{3})*(?:\.\d{2})?)/i`
at a fixed position: the ordered alternation tries `total`, then
`totaling`, then `total amount`, backtracking into the later alternatives
when the continuation fails. -/
def totalTryAt (cs : List Char) : Option ℚ :=
  if startsWithCI cs "total" then
    match totalCont (cs.drop 5) with
    | some v => some v
    | none =>
      if startsWithCI cs "totaling" then
        match totalCont (cs.drop 8) with
        | some v => some v
        | none =>
          if startsWithCI cs "total amount" then totalCont (cs.drop 12) else none
      else
        if startsWithCI cs "total amount" then totalCont (cs.drop 12) else none
  else none

/-- Leftmost match of the total-amount pattern. -/
def totalScan : List Char → Option ℚ
  | [] => none
  | c :: rest =>
    match totalTryAt (c :: rest) with
    | some v => some v
    | none => totalScan rest

/-- The `paymentFrequency` determination (`text.match(/monthly|.../i)` chains). -/
def paymentFrequencyOf (text : String) : Option String :=
  if containsCI text "monthly" || containsCI text "per month" || containsCI text "/month" then
    some "monthly"
  else if containsCI text "weekly" || containsCI text "per week" || containsCI text "/week" then
    some "weekly"
  else if containsCI text "bi-weekly" || containsCI text "biweekly" ||
      containsCI text "every two weeks" then
    some "bi-weekly"
  else none

/-- The raw result of `extractFinancialTerms(text)`. -/
structure RawTerms where
  proposedAmount : Option ℚ
  monthlyAmount : Option ℚ
  numberOfPayments : Option ℕ
  totalAmount : Option ℚ
  paymentFrequency : Option String
  allAmounts : List ℚ
deriving DecidableEq, Repr

/-- `extractFinancialTerms` of `getFallbackAnalysis`. -/
def extractFinancialTerms (text : String) : RawTerms :=
  let amounts := dollarScan text.data
  { proposedAmount := amounts.head?
    monthlyAmount := monthlyScan text.data
    numberOfPayments := paymentsScan text.data
    totalAmount := totalScan text.data
    paymentFrequency := paymentFrequencyOf text
    allAmounts := amounts }

/-- `getFallbackAnalysis(body)`: keyword intent/sentiment, regex term
extraction, fixed confidence `0.6` and `requiresUserReview: true`. -/
def getFallbackAnalysis (body : String) : ResponseAnalysis :=
  let lowerBody := String.mk (toLowerList body.data)
  let intentSentiment : Intent × Sentiment :=
    if containsCI lowerBody "accept" || containsCI lowerBody "agree" ||
        containsCI lowerBody "approved" then
      (.acceptance, .positive)
    else if containsCI lowerBody "reject" || containsCI lowerBody "decline" ||
        containsCI lowerBody "denied" then
      (.rejection, .negative)
    else if containsCI lowerBody "counter" || containsCI lowerBody "instead" ||
        containsCI lowerBody "however" then
      (.counter_offer, .neutral)
    else if containsCI lowerBody "information" || containsCI lowerBody "clarify" ||
        containsCI lowerBody "details" then
      (.request_info, .neutral)
    else (.unclear, .neutral)
  let intent := intentSentiment.1
  let terms := extractFinancialTerms body
  { intent := intent
    sentiment := intentSentiment.2
    confidence := 3/5
    extractedTerms :=
      { proposedAmount := terms.proposedAmount
        proposedPaymentPlan := if truthyQ terms.monthlyAmount then some "payment plan" else none
        paymentTerms :=
          if truthyQ terms.monthlyAmount || truthyN terms.numberOfPayments then
            some { monthlyAmount := terms.monthlyAmount
                   numberOfPayments := terms.numberOfPayments
                   totalAmount := terms.totalAmount
                   interestRate := none
                   paymentFrequency := terms.paymentFrequency }
          else none
        deadline := none
        conditions := [] }
    reasoning := "Generated using enhanced keyword-based fallback analysis. Found " ++
      toString terms.allAmounts.length ++ " amounts."
    suggestedNextAction :=
      if intent = .acceptance then .mark_settled
      else if intent = .rejection then .escalate_to_user
      else if intent = .counter_offer then .send_counter
      else .escalate_to_user
    requiresUserReview := true }

/- ## The `analyze-response` request handler (`serve`) -/

/-- A `conversation_messages` row (the columns the handler touches). -/
structure ConversationMessage where
  message_id : String
  debt_id : String
  message_type : String
  direction : String
  subject : String
  body : String
  from_email : String
  to_email : Option String
  ai_analysis : Option ResponseAnalysis
deriving DecidableEq, Repr

/-- The request body `{debtId, fromEmail, subject, body, messageId}`. -/
structure AnalyzeRequest where
  debtId : String
  fromEmail : String
  subject : String
  body : String
  messageId : String
deriving DecidableEq, Repr

/-- The decision computed by the `switch (analysis.intent)` block. -/
structure AnalyzeDecision where
  newStatus : DebtStatus
  newNegotiationRound : ℕ
  shouldAutoRespond : Bool
  nextAction : NextAction
  financialOutcome : Option FinancialOutcome
deriving DecidableEq, Repr

/-- The `switch (analysis.intent)` block of `serve`, with
`newNegotiationRound` initialised to `debt.negotiation_round || 1`. -/
def analyzeSwitch (debt : Debt) (analysis : ResponseAnalysis) : AnalyzeDecision :=
  let round0 := jsOrNat debt.negotiation_round 1
  match analysis.intent with
  | .acceptance =>
    { newStatus := .accepted, newNegotiationRound := round0, shouldAutoRespond := false
      nextAction := .mark_settled
      financialOutcome := some (calculateFinancialOutcome debt analysis) }
  | .rejection =>
    { newStatus := .rejected, newNegotiationRound := round0, shouldAutoRespond := false
      nextAction := .escalate_to_user, financialOutcome := none }
  | .counter_offer =>
    { newStatus := .counter_negotiating, newNegotiationRound := round0 + 1
      shouldAutoRespond := !analysis.requiresUserReview && decide (analysis.confidence > 8/10)
      nextAction := analysis.suggestedNextAction, financialOutcome := none }
  | .request_info =>
    { newStatus := .awaiting_response, newNegotiationRound := round0, shouldAutoRespond := false
      nextAction := .escalate_to_user, financialOutcome := none }
  | .unclear =>
    { newStatus := .awaiting_response, newNegotiationRound := round0, shouldAutoRespond := false
      nextAction := .escalate_to_user, financialOutcome := none }

/-- The guard on the auto-counter `fetch` near the end of `serve`:
`shouldAutoRespond && analysis.confidence > 0.8 && analysis.intent === "counter_offer"`,
and the call happens only when the negotiate URL and service key are
configured (`configured`). -/
def autoResponseTriggered (configured : Bool) (debt : Debt) (analysis : ResponseAnalysis) :
    Bool :=
  configured && ((analyzeSwitch debt analysis).shouldAutoRespond &&
    (decide (analysis.confidence > 8/10) && decide (analysis.intent = .counter_offer)))

/-- The handler's database view: the `conversation_messages` rows plus the
debt row it reads and writes. -/
structure ServerState where
  messages : List ConversationMessage
  debt : Debt
deriving DecidableEq, Repr

/-- The `message_type` chosen for the stored message. -/
def messageTypeOf (intent : Intent) : String :=
  match intent with
  | .acceptance => "acceptance"
  | .rejection => "rejection"
  | .counter_offer => "counter_offer"
  | _ => "response_received"

/-- One run of the `analyze-response` handler on a debt that exists:
stores the message with `.update(...).eq("message_id", messageId)` (an
update: rows with that `message_id` are patched, nothing is inserted) and
then writes `updateData` to the debt row.  On an acceptance the status is
overwritten to `settled` and `actual_savings` recorded. -/
def serveStep (st : ServerState) (req : AnalyzeRequest) (analysis : ResponseAnalysis) :
    ServerState :=
  let debt := st.debt
  let d := analyzeSwitch debt analysis
  let messages := st.messages.map fun m =>
    if m.message_id = req.messageId then
      { m with debt_id := req.debtId
               message_type := messageTypeOf analysis.intent
               direction := "inbound"
               subject := req.subject
               body := req.body
               from_email := req.fromEmail
               to_email := some (jsOrStr debt.metaToEmail (jsOrStr debt.metaFromEmail ""))
               ai_analysis := some analysis }
    else m
  let isAcceptance := analysis.intent = .acceptance
  let newDebt :=
    { debt with
        status := if isAcceptance then .settled else d.newStatus
        negotiation_round := some d.newNegotiationRound
        conversation_count := some (jsOrNat debt.conversation_count 0 + 1)
        actual_savings :=
          if isAcceptance then (d.financialOutcome.map FinancialOutcome.actualSavings)
          else debt.actual_savings }
  { messages := messages, debt := newDebt }

/- ## Opt-out detection (src/src/pages/api/postmark.ts) -/

/-- The `optOutSchema` result of `detectOptOutWithAI` (`none` when the AI
is unavailable or errored). -/
structure OptOutDetection where
  isOptOut : Bool
  confidence : ℚ
  reason : String
deriving DecidableEq, Repr

def optOutKeywords : List String := ["STOP", "UNSUBSCRIBE", "OPT-OUT", "REMOVE"]

/-- The `hasOptOut` computation of the webhook: AI result with confidence
above `0.7` when available, otherwise the uppercase keyword fallback. -/
def hasOptOut (detection : Option OptOutDetection) (textBody : String) : Bool :=
  match detection with
  | some d => d.isOptOut && decide (d.confidence > 7/10)
  | none =>
    optOutKeywords.any fun kw => containsList (toUpperList textBody.data) kw.data

/-- The debt row inserted by the webhook's opt-out branch. -/
structure InsertedDebt where
  vendor : String
  amount : ℚ
  raw_email : String
  status : DebtStatus
deriving DecidableEq, Repr

/-- What the webhook does after opt-out detection: either log the opt-out
debt and stop, or continue into debt parsing and negotiation. -/
inductive InboundOutcome
  | optOutLogged (row : InsertedDebt)
  | negotiationFlow
deriving DecidableEq, Repr

/-- The opt-out branch of the webhook `POST` handler. -/
def postmarkOptOutStep (detection : Option OptOutDetection) (textBody fromEmail : String) :
    InboundOutcome :=
  if hasOptOut detection textBody then
    .optOutLogged { vendor := fromEmail, amount := 0, raw_email := textBody
                    status := .opted_out }
  else .negotiationFlow

/- ## Variable template engine -/

/-- Length of the leading whitespace run (the greedy `\s*`). -/
def wsCount (cs : List Char) : ℕ := (cs.takeWhile isSpaceChar).length

/-- The closing part `\s*\}\}` as a prefix of `cs`: the number of characters
it consumes.  Greedy `\s*` is exact because `\x7d` is not whitespace. -/
def closeMatch (cs : List Char) : Option ℕ :=
  let w := wsCount cs
  match cs.drop w with
  | '\x7d' :: '\x7d' :: _ => some (w + 2)
  | _ => none

/-- Attempts of `\s*KEY\s*\x7d\x7d` as a prefix of `cs` where the leading
`\s*` consumes exactly `i` characters, tried for `i, i-1, …, 0` (the greedy
order a backtracking engine uses); returns the total consumed length. -/
def tryKeyFrom (key cs : List Char) : ℕ → Option ℕ
  | 0 =>
    if startsWithList cs key then
      (closeMatch (cs.drop key.length)).map (· + key.length)
    else none
  | i + 1 =>
    (if startsWithList (cs.drop (i + 1)) key then
      (closeMatch ((cs.drop (i + 1)).drop key.length)).map (· + (i + 1) + key.length)
    else none).orElse (fun _ => tryKeyFrom key cs i)

/-- A match of `/\{\{\s*KEY\s*\}\}/` (the key regex-escaped, hence literal)
as a prefix of `cs`: the total number of characters matched. -/
def placeholderLen (key cs : List Char) : Option ℕ :=
  match cs with
  | '\x7b' :: '\x7b' :: rest =>
    (tryKeyFrom key rest (wsCount rest)).map (· + 2)
  | _ => none

theorem placeholderLen_pos {key cs : List Char} {n : ℕ}
    (h : placeholderLen key cs = some n) : 0 < n := by
  rw [placeholderLen.eq_def] at h
  split at h
  · rw [Option.map_eq_some'] at h
    obtain ⟨m, _, rfl⟩ := h
    omega
  · exact absurd h (by simp)

/-- One global pass `text.replace(new RegExp(pattern, "g"), value)`:
non-overlapping leftmost matches, and the substituted value is not
rescanned within the same pass.  Fuel-driven structural recursion: a match
consumes at least one character (`placeholderLen_pos`) and a failed
position advances by one, so fuel equal to the input length is always
sufficient. -/
def replaceScanF (key value : List Char) : ℕ → List Char → List Char
  | 0, _ => []
  | _ + 1, [] => []
  | fuel + 1, c :: rest =>
    match placeholderLen key (c :: rest) with
    | some n => value ++ replaceScanF key value fuel ((c :: rest).drop n)
    | none => c :: replaceScanF key value fuel rest

def replaceScan (key value cs : List Char) : List Char :=
  replaceScanF key value cs.length cs

/-- Whether the key's placeholder pattern matches anywhere in the text. -/
def hasPlaceholder (key : List Char) : List Char → Bool
  | [] => false
  | c :: rest => (placeholderLen key (c :: rest)).isSome || hasPlaceholder key rest

/-- `replaceVariables(text, variables)` of the email-variables utility module
(and of src/src/lib/email-variables.ts): one global replace pass per map
entry, in entry order.  Values are substituted literally (the JS `$`-escape
sequences of `String.replace` are not modelled; no claim concerns them). -/
def replaceVariablesUtil (text : String) (vars : List (String × String)) : String :=
  vars.foldl
    (fun acc kv => String.mk (replaceScan kv.1.data kv.2.data acc.data)) text

/-- The greedy `([^\x7d]+)` capture and the following `\x7d\x7d` of the
send-email pattern at the head of `cs`: the captured name and the remainder. -/
def innerName (cs : List Char) : Option (List Char × List Char) :=
  let nm := cs.takeWhile (fun c => c ≠ '\x7d')
  if nm.isEmpty then none
  else
    match cs.dropWhile (fun c => c ≠ '\x7d') with
    | '\x7d' :: '\x7d' :: r2 => some (nm, r2)
    | _ => none

theorem innerName_snd_length {cs nm r2 : List Char}
    (h : innerName cs = some (nm, r2)) : r2.length < cs.length := by
  rw [innerName] at h
  split at h
  · exact absurd h (by simp)
  · split at h
    · rename_i heq
      have h2 := dropWhile_length_le (fun c => c ≠ '\x7d') cs
      rw [heq] at h2
      simp only [List.length_cons] at h2
      simp only [Option.some.injEq, Prod.mk.injEq] at h
      obtain ⟨-, h4⟩ := h
      subst h4
      omega
    · exact absurd h (by simp)

/-- `replaceVariables(text, variables)` of send-email/index.ts:
`text.replace(/\{\{([^\}]+)\}\}/g, (m, name) => variables[name.trim()] || "")` —
every placeholder is replaced, and a name absent from the map (or bound to
`""`) becomes the empty string. -/
def sendEmailScanF (vars : List (String × String)) : ℕ → List Char → List Char
  | 0, _ => []
  | _ + 1, [] => []
  | fuel + 1, '\x7b' :: '\x7b' :: rest =>
    (match innerName rest with
     | some (nm, r2) =>
       (jsOrStr (assocLookup (String.mk (trimList nm)) vars) "").data ++
         sendEmailScanF vars fuel r2
     | none => '\x7b' :: sendEmailScanF vars fuel ('\x7b' :: rest))
  | fuel + 1, c :: rest => c :: sendEmailScanF vars fuel rest

/-- `replaceVariables(text, variables)` of send-email/index.ts:
`text.replace(/\{\{([^\}]+)\}\}/g, (m, name) => variables[name.trim()] || "")` —
every placeholder is replaced, and a name absent from the map (or bound to
`""`) becomes the empty string.  Fuel-driven structural recursion: every
step consumes at least one character (`innerName_snd_length`), so fuel
equal to the input length is always sufficient. -/
def sendEmailScan (vars : List (String × String)) (cs : List Char) : List Char :=
  sendEmailScanF vars cs.length cs

def sendEmailReplaceVariables (text : String) (vars : List (String × String)) : String :=
  String.mk (sendEmailScan vars text.data)

/- ## Negotiation strategy generator fallback (src/supabase/functions/negotiate/index.ts) -/

inductive Strategy
  | extension | installment | settlement | dispute
deriving DecidableEq, Repr

/-- `customTerms` assigned per strategy branch. -/
structure CustomTerms where
  extensionDays : Option ℕ
  installmentMonths : Option ℕ
  monthlyPayment : Option ℚ
  settlementPercentage : Option ℚ
deriving DecidableEq, Repr

/-- The `PersonalData` interface. -/
structure PersonalData where
  full_name : Option String
  address_line_1 : Option String
  address_line_2 : Option String
  city : Option String
  state : Option String
  zip_code : Option String
  phone_number : Option String
deriving DecidableEq, Repr

/-- The fields of the `DebtRecord` interface the fallback generator reads. -/
structure DebtRecord where
  vendor : String
  amount : ℚ
deriving DecidableEq, Repr

/-- What `generateFallbackEmail` returns. -/
structure FallbackEmail where
  subject : String
  body : String
  strategy : Strategy
  confidenceLevel : ℚ
  projectedSavings : ℚ
  reasoning : String
  customTerms : CustomTerms
deriving DecidableEq, Repr

/-- `generateNegotiationLetter(record, strategy, personalData)`. -/
def generateNegotiationLetter (record : DebtRecord) (strategy : Strategy)
    (personalData : PersonalData) : String :=
  let senderInfo :=
    jsOrStr personalData.full_name "\x7b\x7b Full Name \x7d\x7d" ++ "\n" ++
    jsOrStr personalData.address_line_1 "\x7b\x7b Address Line 1 \x7d\x7d" ++ " " ++
    (match personalData.address_line_2 with
     | some s => if s = "" then "" else s
     | none => "") ++ "\n" ++
    jsOrStr personalData.city "\x7b\x7b City \x7d\x7d" ++ ", " ++
    jsOrStr personalData.state "\x7b\x7b State \x7d\x7d" ++ " " ++
    jsOrStr personalData.zip_code "\x7b\x7b Zip Code \x7d\x7d" ++ "\n\n" ++
    jsOrStr personalData.phone_number "\x7b\x7b Phone Number \x7d\x7d" ++
    "\n\n\x7b\x7b Date \x7d\x7d"
  let vendorDomain :=
    if containsList record.vendor.data ['@'] then
      String.mk (((splitOnChar '@' record.vendor.data).drop 1).headD [])
    else record.vendor
  let companyName := String.mk (toUpperList ((splitOnChar '.' vendorDomain.data).headD []))
  let recipientInfo :=
    companyName ++ " Collections Department\n\x7b\x7b Collection Agency Address \x7d\x7d"
  let baseResponse := senderInfo ++ "\n\n" ++ recipientInfo ++
    "\n\nSubject: Account Number: \x7b\x7b Account Number \x7d\x7d\n\nTo Whom It May Concern,\n\n" ++
    "This letter is regarding the debt associated with the account number referenced above, originally with " ++
    record.vendor ++ ", in the amount of $" ++ toFixedQ 2 record.amount ++
    ".\n\nI am writing to propose a payment arrangement to resolve this matter."
  let proposal :=
    match strategy with
    | .extension =>
      " I respectfully request a 30-day extension to arrange full payment. I anticipate being able to settle this account in full by \x7b\x7b Proposed Payment Date \x7d\x7d.\n\nDuring this extension period, I request that no additional fees or interest be applied to maintain the current balance."
    | .installment =>
      " I am able to pay the full balance of $" ++ toFixedQ 2 record.amount ++
      " through an installment plan. I propose to make three (3) equal monthly payments of $" ++
      toFixedQ 2 (record.amount / 3) ++
      ", with the first payment to be made on \x7b\x7b Proposed Start Date \x7d\x7d."
    | .settlement =>
      " I would like to propose a lump-sum settlement offer of $" ++
      toFixedQ 2 (record.amount * 6/10) ++
      " (60% of the current balance) to resolve this matter completely.\n\nThis settlement would be paid within 10 business days of written acceptance of this offer. Upon payment, I request written confirmation that this account will be considered paid in full and closed."
    | .dispute =>
      " I am formally disputing this debt and requesting validation under Section 809(b) of the Fair Debt Collection Practices Act.\n\nPlease provide:\n- Verification of the debt amount\n- Name and address of the original creditor\n- Copy of any judgment (if applicable)  \n- Verification of your authority to collect this debt\n\nUntil proper validation is provided, I request that all collection activities cease."
  let closingResponse :=
    "\n\nPlease confirm in writing your acceptance of this installment plan. Upon receiving your written agreement, I will begin making the proposed payments according to the schedule.\n\nIn accordance with the Fair Debt Collection Practices Act (FDCPA), I request validation of this debt. Please provide verification of the debt, including documentation showing the original creditor, the amount owed, and that you are legally authorized to collect this debt. I understand that you must cease collection efforts until this validation is provided.\n\nI look forward to your prompt response and confirmation of this payment arrangement.\n\nSincerely,\n" ++
    jsOrStr personalData.full_name "\x7b\x7b Your Typed Name \x7d\x7d"
  baseResponse ++ proposal ++ closingResponse

/-- `generateFallbackEmail(record, personalData)`: pure amount-threshold
strategy choice. -/
def generateFallbackEmail (record : DebtRecord) (personalData : PersonalData) :
    FallbackEmail :=
  let choice : Strategy × ℚ × CustomTerms :=
    if record.amount < 500 then
      (.extension, 0,
        { extensionDays := some 30, installmentMonths := none
          monthlyPayment := none, settlementPercentage := none })
    else if record.amount ≥ 500 ∧ record.amount < 2000 then
      (.installment, record.amount * 1/10,
        { extensionDays := none, installmentMonths := some 3
          monthlyPayment := some ((jsRound (record.amount / 3 * 100) : ℚ) / 100)
          settlementPercentage := none })
    else
      (.settlement, record.amount * 4/10,
        { extensionDays := none, installmentMonths := none
          monthlyPayment := none, settlementPercentage := some (6/10) })
  { subject := "Account Number: \x7b\x7b Account Number \x7d\x7d - Payment Arrangement Request"
    body := generateNegotiationLetter record choice.1 personalData
    strategy := choice.1
    confidenceLevel := 7/10
    projectedSavings := choice.2.1
    reasoning := "Generated using rule-based fallback logic"
    customTerms := choice.2.2 }

/- ## Claim C1 -/

def c1Debt : Debt :=
  { id := "debt-1", amount := 1200, status := .counter_negotiating
    negotiation_round := some 1, conversation_count := some 2, actual_savings := none
    prospectedSavingsAmount := none, metaToEmail := some "user@relay.example"
    metaFromEmail := some "creditor@vendor.example" }

def c1Analysis : ResponseAnalysis :=
  { intent := .counter_offer, sentiment := .neutral, confidence := 1/2
    extractedTerms := { proposedAmount := some 900, proposedPaymentPlan := none
                        paymentTerms := none, deadline := none, conditions := [] }
    reasoning := "counter offer detected", suggestedNextAction := .send_counter
    requiresUserReview := false }

/-- C1 (counterexample): a counter_offer classification with confidence 0.5
does NOT move the debt to `requires_manual_review`: the intent switch sets
`counter_negotiating`, though no automatic counter is triggered. -/
theorem c1_counterexample :
    (analyzeSwitch c1Debt c1Analysis).newStatus = DebtStatus.counter_negotiating ∧
    (analyzeSwitch c1Debt c1Analysis).newStatus ≠ DebtStatus.requires_manual_review ∧
    autoResponseTriggered true c1Debt c1Analysis = false := by
  refine ⟨by decide, by decide, by decide⟩

/-- C1 (amended): for a counter_offer with confidence ≤ 0.8 or the review
flag set, the status becomes `counter_negotiating` (never
`requires_manual_review`), the round still increments, and no automatic
counter email is triggered. -/
theorem c1_low_confidence_counter (cfg : Bool) (debt : Debt) (a : ResponseAnalysis)
    (hi : a.intent = .counter_offer)
    (hl : a.confidence ≤ 8/10 ∨ a.requiresUserReview = true) :
    (analyzeSwitch debt a).newStatus = DebtStatus.counter_negotiating ∧
    (analyzeSwitch debt a).newNegotiationRound = jsOrNat debt.negotiation_round 1 + 1 ∧
    autoResponseTriggered cfg debt a = false := by
  obtain ⟨it, st, cf, et, rs, sa, rv⟩ := a
  simp only at hi
  subst hi
  refine ⟨by simp [analyzeSwitch], by simp [analyzeSwitch], ?_⟩
  simp only [analyzeSwitch, autoResponseTriggered]
  rcases hl with hl | hl
  · have h2 : ¬(cf > 8/10) := not_lt.mpr hl
    simp [h2]
  · simp only at hl
    subst hl
    simp

theorem c1_low_confidence_counter_witness :
    (analyzeSwitch c1Debt c1Analysis).newStatus = DebtStatus.counter_negotiating ∧
    (analyzeSwitch c1Debt c1Analysis).newNegotiationRound =
      jsOrNat c1Debt.negotiation_round 1 + 1 ∧
    autoResponseTriggered true c1Debt c1Analysis = false :=
  c1_low_confidence_counter true c1Debt c1Analysis rfl (Or.inl (by decide))

/- ## Claim C2 -/

def c2Debt : Debt :=
  { id := "debt-2", amount := 2400, status := .counter_negotiating
    negotiation_round := some 1, conversation_count := some 2, actual_savings := none
    prospectedSavingsAmount := none, metaToEmail := none, metaFromEmail := none }

def c2Analysis : ResponseAnalysis :=
  { intent := .counter_offer, sentiment := .negative, confidence := 9/10
    extractedTerms := { proposedAmount := some 2000, proposedPaymentPlan := none
                        paymentTerms := none, deadline := none, conditions := [] }
    reasoning := "hostile counter", suggestedNextAction := .escalate_to_user
    requiresUserReview := false }

/-- C2 (counterexample): with confidence 0.9 and no review flag the
auto-counter fires even though the suggested next action is
`escalate_to_user`, not a counter-send — the trigger never consults the
suggested action, refuting the claim's "if and only if". -/
theorem c2_counterexample :
    autoResponseTriggered true c2Debt c2Analysis = true ∧
    c2Analysis.suggestedNextAction ≠ NextAction.send_counter := by
  refine ⟨by decide, by decide⟩

/-- C2 (amended): for a counter_offer reply, the auto-counter fires iff
the environment is configured, the review flag is clear and confidence
exceeds 0.8 — the suggested next action is not consulted; the round
always increments by one and the status becomes `counter_negotiating`. -/
theorem c2_auto_counter_rule (cfg : Bool) (debt : Debt) (a : ResponseAnalysis)
    (hi : a.intent = .counter_offer) :
    autoResponseTriggered cfg debt a =
      (cfg && (!a.requiresUserReview && decide (a.confidence > 8/10))) ∧
    (analyzeSwitch debt a).newStatus = DebtStatus.counter_negotiating ∧
    (analyzeSwitch debt a).newNegotiationRound = jsOrNat debt.negotiation_round 1 + 1 := by
  obtain ⟨it, st, cf, et, rs, sa, rv⟩ := a
  simp only at hi
  subst hi
  refine ⟨?_, by simp [analyzeSwitch], by simp [analyzeSwitch]⟩
  simp only [analyzeSwitch, autoResponseTriggered]
  cases rv <;> cases cfg <;> cases h : decide (cf > 8/10) <;> simp [h]

theorem c2_auto_counter_rule_witness :
    autoResponseTriggered true c2Debt c2Analysis =
      (true && (!c2Analysis.requiresUserReview && decide (c2Analysis.confidence > 8/10))) ∧
    (analyzeSwitch c2Debt c2Analysis).newStatus = DebtStatus.counter_negotiating ∧
    (analyzeSwitch c2Debt c2Analysis).newNegotiationRound =
      jsOrNat c2Debt.negotiation_round 1 + 1 :=
  c2_auto_counter_rule true c2Debt c2Analysis rfl

/- ## Claim C5 -/

def c5Message : ConversationMessage :=
  { message_id := "msg-77", debt_id := "debt-5", message_type := "response_received"
    direction := "inbound", subject := "Re: settlement", body := "counter $900 instead"
    from_email := "creditor@vendor.example", to_email := some "user@relay.example"
    ai_analysis := none }

def c5Debt : Debt :=
  { id := "debt-5", amount := 1500, status := .counter_negotiating
    negotiation_round := some 1, conversation_count := some 0, actual_savings := none
    prospectedSavingsAmount := none, metaToEmail := some "user@relay.example"
    metaFromEmail := some "creditor@vendor.example" }

def c5State : ServerState := { messages := [c5Message], debt := c5Debt }

def c5Req : AnalyzeRequest :=
  { debtId := "debt-5", fromEmail := "creditor@vendor.example"
    subject := "Re: settlement", body := "counter $900 instead", messageId := "msg-77" }

def c5Analysis : ResponseAnalysis :=
  { intent := .counter_offer, sentiment := .neutral, confidence := 9/10
    extractedTerms := { proposedAmount := some 900, proposedPaymentPlan := none
                        paymentTerms := none, deadline := none, conditions := [] }
    reasoning := "counter", suggestedNextAction := .send_counter
    requiresUserReview := false }

/-- C5 (counterexample): running the analyze-response step twice with the
same message id increments `conversation_count` and `negotiation_round`
again on the second run — the step is not idempotent. -/
theorem c5_counterexample :
    (serveStep c5State c5Req c5Analysis).debt.conversation_count = some 1 ∧
    (serveStep (serveStep c5State c5Req c5Analysis) c5Req c5Analysis).debt.conversation_count
      = some 2 ∧
    (serveStep c5State c5Req c5Analysis).debt.negotiation_round = some 2 ∧
    (serveStep (serveStep c5State c5Req c5Analysis) c5Req c5Analysis).debt.negotiation_round
      = some 3 := by
  refine ⟨by decide, by decide, by decide, by decide⟩

/-- C5 (amended): each run of the step stores the message by updating rows
keyed by the message id (never inserting, so no duplicate
ConversationMessage), but unconditionally increments `conversation_count`,
so reprocessing the same message id double-increments the counters. -/
theorem c5_update_only_but_counts (st : ServerState) (req : AnalyzeRequest)
    (a : ResponseAnalysis) :
    (serveStep st req a).messages.length = st.messages.length ∧
    (serveStep st req a).debt.conversation_count =
      some (jsOrNat st.debt.conversation_count 0 + 1) := by
  constructor
  · simp [serveStep]
  · rfl

/- ## Claim C7 -/

theorem shouldAutoRespond_false_of_review (debt : Debt) (a : ResponseAnalysis)
    (h : a.requiresUserReview = true) :
    (analyzeSwitch debt a).shouldAutoRespond = false := by
  obtain ⟨it, st, cf, et, rs, sa, rv⟩ := a
  simp only at h
  subst h
  cases it <;> simp [analyzeSwitch]

/-- C7: the fallback classifier always returns confidence exactly 0.6 and
`requiresUserReview = true`, so a fallback classification never triggers
the automatic counter-response, whatever the debt or configuration. -/
theorem c7_fallback_never_auto (body : String) (cfg : Bool) (debt : Debt) :
    (getFallbackAnalysis body).confidence = 3/5 ∧
    (getFallbackAnalysis body).requiresUserReview = true ∧
    autoResponseTriggered cfg debt (getFallbackAnalysis body) = false := by
  refine ⟨rfl, rfl, ?_⟩
  rw [autoResponseTriggered,
    shouldAutoRespond_false_of_review debt (getFallbackAnalysis body) rfl]
  simp

/- ## Claim C3 -/

def c3Debt : Debt :=
  { id := "debt-3", amount := 5000, status := .counter_negotiating
    negotiation_round := some 1, conversation_count := some 2, actual_savings := none
    prospectedSavingsAmount := none, metaToEmail := none, metaFromEmail := none }

def c3Analysis : ResponseAnalysis :=
  { intent := .acceptance, sentiment := .positive, confidence := 95/100
    extractedTerms := { proposedAmount := some 3200, proposedPaymentPlan := none
                        paymentTerms := none, deadline := none, conditions := [] }
    reasoning := "flat settlement accepted", suggestedNextAction := .mark_settled
    requiresUserReview := false }

/-- C3: the accepted amount is resolved with priority flat settlement
amount, then plan total, then `original − prospected savings`;
`actual_savings = max(0, original − accepted)`; and for original 5000 with
flat amount 3200 the outcome is savings 1800, principal reduction,
percentage "36.00". -/
theorem c3_accepted_amount_resolution :
    (∀ (debt : Debt) (a : ResponseAnalysis) (pa : ℚ),
      a.extractedTerms.proposedAmount = some pa → pa ≠ 0 →
      (calculateFinancialOutcome debt a).acceptedAmount = pa ∧
      (calculateFinancialOutcome debt a).actualSavings = max 0 (debt.amount - pa)) ∧
    (∀ (debt : Debt) (a : ResponseAnalysis) (ta : ℚ),
      truthyQ a.extractedTerms.proposedAmount = false →
      a.extractedTerms.paymentTerms.bind PaymentTerms.totalAmount = some ta → ta ≠ 0 →
      (calculateFinancialOutcome debt a).acceptedAmount = ta ∧
      (calculateFinancialOutcome debt a).actualSavings = max 0 (debt.amount - ta)) ∧
    (∀ (debt : Debt) (a : ResponseAnalysis) (ps : ℚ),
      truthyQ a.extractedTerms.proposedAmount = false →
      truthyQ (a.extractedTerms.paymentTerms.bind PaymentTerms.totalAmount) = false →
      debt.prospectedSavingsAmount = some ps → ps ≠ 0 →
      (calculateFinancialOutcome debt a).acceptedAmount = debt.amount - ps) ∧
    ((calculateFinancialOutcome c3Debt c3Analysis).acceptedAmount = 3200 ∧
     (calculateFinancialOutcome c3Debt c3Analysis).actualSavings = 1800 ∧
     (calculateFinancialOutcome c3Debt c3Analysis).financialBenefit =
       some (.principalReduction 1800 "36.00" "36.0% principal reduction")) := by
  refine ⟨?_, ?_, ?_, by decide, by decide, by decide⟩
  · intro debt a pa h1 h2
    constructor
    · simp [calculateFinancialOutcome, acceptedAmountOf, h1, truthyQ, h2]
    · simp [calculateFinancialOutcome, acceptedAmountOf, h1, truthyQ, h2]
  · intro debt a ta h1 h2 h3
    constructor
    · simp only [calculateFinancialOutcome, acceptedAmountOf, h1, h2]
      simp [truthyQ, h3]
    · simp only [calculateFinancialOutcome, acceptedAmountOf, h1, h2]
      simp [truthyQ, h3]
  · intro debt a ps h1 h2 h3 h4
    simp only [calculateFinancialOutcome, acceptedAmountOf, h1, h2, h3]
    simp [truthyQ, h4]

theorem c3_witness :
    (calculateFinancialOutcome c3Debt c3Analysis).acceptedAmount = 3200 ∧
    (calculateFinancialOutcome c3Debt c3Analysis).actualSavings =
      max 0 (c3Debt.amount - 3200) :=
  c3_accepted_amount_resolution.1 c3Debt c3Analysis 3200 rfl (by norm_num)

/- ## Claim C4 -/

def c4Debt : Debt :=
  { id := "debt-4", amount := 4500, status := .counter_negotiating
    negotiation_round := some 1, conversation_count := some 2, actual_savings := none
    prospectedSavingsAmount := none, metaToEmail := none, metaFromEmail := none }

def c4Terms : PaymentTerms :=
  { monthlyAmount := some 250, numberOfPayments := some 18, totalAmount := none
    interestRate := none, paymentFrequency := some "monthly" }

def c4Analysis : ResponseAnalysis :=
  { intent := .acceptance, sentiment := .positive, confidence := 9/10
    extractedTerms := { proposedAmount := none, proposedPaymentPlan := some "payment plan"
                        paymentTerms := some c4Terms, deadline := none, conditions := [] }
    reasoning := "payment plan accepted", suggestedNextAction := .mark_settled
    requiresUserReview := false }

/-- C4 (counterexample): at original 4500, monthly 250, 18 payments the
RECORDED benefit is the summary object (a descriptive cash-flow string, no
numeric cash-flow product and no time-value field), not hold the claimed
detailed shape; moreover the present value at 5%/12 is about 4326.7, not
the claimed ≈ 4264.98 (so the time value is ≈ 173.3, not ≈ 235.02). -/
theorem c4_counterexample :
    (calculateFinancialOutcome c4Debt c4Analysis).actualSavings = 0 ∧
    (calculateFinancialOutcome c4Debt c4Analysis).financialBenefit =
      some (.restructuringSummary 4250 (some 18)
        "Payment restructured to $250/month over 18 months"
        "$4250/month cash flow relief") ∧
    (calculateFinancialOutcome c4Debt c4Analysis).financialBenefit ≠
      some (.restructuringDetail 0 4250 18 76500 (calculateTimeValueBenefit 4500 250 18)) ∧
    (4326 : ℚ) < presentValue 250 18 ∧ presentValue 250 18 < 4327 := by
  refine ⟨by decide, by decide, by decide, by decide, by decide⟩

/-- C4 (amended): the calculator first computes the detailed
payment-restructuring benefit — cash-flow product
`(original − monthly) × n` and the 5%/12 present-value time value — but
whenever `actual_savings = 0` and a monthly amount is present it then
overwrites the recorded benefit with the summary object; at the example
the discarded detail carries cash-flow 76500 and present value ≈ 4326.72
(time value ≈ 173.28). -/
theorem c4_restructuring_overwritten :
    (∀ (debt : Debt) (a : ResponseAnalysis) (t : PaymentTerms) (ma : ℚ) (n : ℕ),
      a.extractedTerms.paymentTerms = some t →
      t.monthlyAmount = some ma → ma ≠ 0 →
      (calculateFinancialOutcome debt a).actualSavings = 0 →
      (calculateFinancialOutcome debt a).financialBenefit =
        some (.restructuringSummary (debt.amount - ma) t.numberOfPayments
          (summaryDescription ma t.numberOfPayments)
          (summaryCashFlow (debt.amount - ma)))) ∧
    (restructuringDetailBenefit 4500 c4Terms =
      some (.restructuringDetail 0 4250 18 76500 (calculateTimeValueBenefit 4500 250 18)) ∧
     toFixedQ 2 (presentValue 250 18) = "4326.72" ∧
     toFixedQ 2 (4500 - presentValue 250 18) = "173.28") := by
  refine ⟨?_, by decide, by decide, by decide⟩
  intro debt a t ma n h1 h2 h3 h4
  have hsav : max 0 (debt.amount - acceptedAmountOf debt a) = 0 := h4
  have hnot : ¬ (max 0 (debt.amount - acceptedAmountOf debt a) > 0) := by
    rw [hsav]
    exact lt_irrefl 0
  simp only [calculateFinancialOutcome, h1]
  simp only [if_neg hnot]
  simp [truthyQ, h2, h3]

theorem c4_restructuring_overwritten_witness :
    (calculateFinancialOutcome c4Debt c4Analysis).financialBenefit =
      some (.restructuringSummary (c4Debt.amount - 250) c4Terms.numberOfPayments
        (summaryDescription 250 c4Terms.numberOfPayments)
        (summaryCashFlow (c4Debt.amount - 250))) :=
  c4_restructuring_overwritten.1 c4Debt c4Analysis c4Terms 250 18 rfl rfl
    (by norm_num) (by decide)

/- ## Claim C6 -/

/-- The treated-as-opt-out condition, stated the way the claim reads:
either the generative detector is available and returns `is_opt_out` with
confidence above 0.7, or it is unavailable and a keyword matches the
upper-cased body. -/
def optOutTreated (detection : Option OptOutDetection) (textBody : String) : Prop :=
  (∃ d, detection = some d ∧ d.isOptOut = true ∧ d.confidence > 7/10) ∨
  (detection = none ∧
    ∃ kw ∈ optOutKeywords, containsList (toUpperList textBody.data) kw.data = true)

theorem hasOptOut_iff (detection : Option OptOutDetection) (textBody : String) :
    hasOptOut detection textBody = true ↔ optOutTreated detection textBody := by
  cases detection with
  | some d =>
    simp [hasOptOut, optOutTreated]
  | none =>
    simp [hasOptOut, optOutTreated, List.any_eq_true]

/-- C6: an inbound email is treated as opt-out iff the AI detector says so
with confidence above 0.7 or, with the detector unavailable, the body
contains one of STOP, UNSUBSCRIBE, OPT-OUT, REMOVE case-insensitively; in
that case a debt row with amount 0 and status `opted_out` is inserted and
no negotiation processing happens, and the spec's example body triggers
the fallback keyword path. -/
theorem c6_opt_out_rule :
    (∀ (detection : Option OptOutDetection) (textBody fromEmail : String),
      (postmarkOptOutStep detection textBody fromEmail =
          .optOutLogged { vendor := fromEmail, amount := 0, raw_email := textBody
                          status := .opted_out }
        ↔ optOutTreated detection textBody) ∧
      (postmarkOptOutStep detection textBody fromEmail = .negotiationFlow
        ↔ ¬ optOutTreated detection textBody)) ∧
    postmarkOptOutStep none "please STOP contacting me" "creditor@vendor.example" =
      .optOutLogged { vendor := "creditor@vendor.example", amount := 0
                      raw_email := "please STOP contacting me", status := .opted_out } := by
  constructor
  · intro detection textBody fromEmail
    rw [← hasOptOut_iff]
    constructor
    · constructor
      · intro hstep
        by_contra hfalse
        rw [postmarkOptOutStep, if_neg (by simp [Bool.not_eq_true] at hfalse ⊢; exact hfalse)] at hstep
        exact absurd hstep (by simp)
      · intro htrue
        rw [postmarkOptOutStep, if_pos htrue]
    · constructor
      · intro hstep
        intro htrue
        rw [postmarkOptOutStep, if_pos htrue] at hstep
        exact absurd hstep (by simp)
      · intro hfalse
        rw [postmarkOptOutStep, if_neg hfalse]
  · decide

/- ## Claim C9 -/

def c9PersonalData : PersonalData :=
  { full_name := some "Ana Doe", address_line_1 := none, address_line_2 := none
    city := none, state := none, zip_code := none, phone_number := none }

/-- C9: the fallback strategy is chosen purely from amount thresholds —
below 500 an extension with no savings, in [500, 2000) a 3-month
installment with 10% projected savings, at or above 2000 a settlement at
60% of balance with 40% projected savings. -/
theorem c9_threshold_strategy (record : DebtRecord) (pd : PersonalData) :
    (record.amount < 500 →
      (generateFallbackEmail record pd).strategy = .extension ∧
      (generateFallbackEmail record pd).projectedSavings = 0 ∧
      (generateFallbackEmail record pd).customTerms.extensionDays = some 30) ∧
    (500 ≤ record.amount → record.amount < 2000 →
      (generateFallbackEmail record pd).strategy = .installment ∧
      (generateFallbackEmail record pd).projectedSavings = record.amount * 1/10 ∧
      (generateFallbackEmail record pd).customTerms.installmentMonths = some 3 ∧
      (generateFallbackEmail record pd).customTerms.monthlyPayment =
        some ((jsRound (record.amount / 3 * 100) : ℚ) / 100)) ∧
    (2000 ≤ record.amount →
      (generateFallbackEmail record pd).strategy = .settlement ∧
      (generateFallbackEmail record pd).projectedSavings = record.amount * 4/10 ∧
      (generateFallbackEmail record pd).customTerms.settlementPercentage = some (6/10)) := by
  refine ⟨?_, ?_, ?_⟩
  · intro h1
    simp [generateFallbackEmail, h1]
  · intro h1 h2
    have hn : ¬ record.amount < 500 := not_lt.mpr h1
    simp [generateFallbackEmail, hn, h1, h2]
  · intro h1
    have hn : ¬ record.amount < 500 := not_lt.mpr (by linarith)
    have hn2 : ¬ record.amount < 2000 := not_lt.mpr h1
    simp [generateFallbackEmail, hn, hn2]

theorem c9_threshold_strategy_witness :
    (generateFallbackEmail { vendor := "billing@acme.example", amount := 100 }
        c9PersonalData).strategy = .extension ∧
    (generateFallbackEmail { vendor := "billing@acme.example", amount := 1000 }
        c9PersonalData).strategy = .installment ∧
    (generateFallbackEmail { vendor := "billing@acme.example", amount := 5000 }
        c9PersonalData).strategy = .settlement :=
  ⟨((c9_threshold_strategy _ _).1 (by norm_num)).1,
   (((c9_threshold_strategy _ _).2.1 (by norm_num) (by norm_num))).1,
   (((c9_threshold_strategy _ _).2.2 (by norm_num))).1⟩

/- ## Claim C10 -/

def c10Debt : Debt :=
  { id := "debt-10", amount := 4500, status := .counter_negotiating
    negotiation_round := some 1, conversation_count := some 2, actual_savings := none
    prospectedSavingsAmount := none, metaToEmail := none, metaFromEmail := none }

/-- C10: the fallback classifier always takes the first dollar amount in
the text as `proposedAmount`, even when that figure is the monthly amount
of a payment plan it also extracts; and since the calculator prefers
`proposedAmount`, a body stating only "$250 per month" is priced as a
flat settlement of 250 (on a 4500 debt: savings 4250, principal
reduction). -/
theorem c10_first_amount_priced_flat :
    (∀ (body : String) (a : ℚ) (rest : List ℚ),
      dollarScan body.data = a :: rest →
      (getFallbackAnalysis body).extractedTerms.proposedAmount = some a) ∧
    (∀ (debt : Debt) (body : String) (a : ℚ) (rest : List ℚ),
      dollarScan body.data = a :: rest → a ≠ 0 →
      (calculateFinancialOutcome debt (getFallbackAnalysis body)).acceptedAmount = a) ∧
    ((getFallbackAnalysis "I can pay $250 per month").extractedTerms.proposedAmount
        = some 250 ∧
     (getFallbackAnalysis "I can pay $250 per month").extractedTerms.paymentTerms =
       some { monthlyAmount := some 250, numberOfPayments := none, totalAmount := none
              interestRate := none, paymentFrequency := some "monthly" } ∧
     (calculateFinancialOutcome c10Debt
        (getFallbackAnalysis "I can pay $250 per month")).acceptedAmount = 250 ∧
     (calculateFinancialOutcome c10Debt
        (getFallbackAnalysis "I can pay $250 per month")).actualSavings = 4250 ∧
     (calculateFinancialOutcome c10Debt
        (getFallbackAnalysis "I can pay $250 per month")).financialBenefit =
       some (.principalReduction 4250 "94.44" "94.4% principal reduction")) := by
  have hhead : ∀ (body : String) (a : ℚ) (rest : List ℚ),
      dollarScan body.data = a :: rest →
      (getFallbackAnalysis body).extractedTerms.proposedAmount = some a := by
    intro body a rest h
    show (extractFinancialTerms body).proposedAmount = some a
    rw [extractFinancialTerms]
    simp only [h]
    rfl
  refine ⟨hhead, ?_, by decide, by decide, by decide, by decide, by decide⟩
  intro debt body a rest h ha
  have h1 := hhead body a rest h
  show acceptedAmountOf debt (getFallbackAnalysis body) = a
  rw [acceptedAmountOf]
  simp [h1, truthyQ, ha]

theorem c10_first_amount_priced_flat_witness :
    (getFallbackAnalysis "I can pay $250 per month").extractedTerms.proposedAmount
        = some 250 ∧
    (calculateFinancialOutcome c10Debt
        (getFallbackAnalysis "I can pay $250 per month")).acceptedAmount = 250 :=
  ⟨c10_first_amount_priced_flat.1 "I can pay $250 per month" 250 [] (by decide),
   c10_first_amount_priced_flat.2.1 c10Debt "I can pay $250 per month" 250 []
     (by decide) (by norm_num)⟩

/- ## Claim C8 -/

theorem startsWithList_nil (l : List Char) : startsWithList l [] = true := by
  cases l <;> rfl

theorem startsWithList_append (xs ys : List Char) : startsWithList (xs ++ ys) xs = true := by
  induction xs with
  | nil => simp [startsWithList_nil]
  | cons a as ih => simp [startsWithList, ih]

theorem replaceScanF_nil (key value : List Char) (fuel : ℕ) :
    replaceScanF key value fuel [] = [] := by
  cases fuel <;> rfl

/-- A pass whose key matches nowhere leaves the text unchanged. -/
theorem replaceScanF_no_match (key value : List Char) (fuel : ℕ) :
    ∀ cs : List Char, cs.length ≤ fuel → hasPlaceholder key cs = false →
      replaceScanF key value fuel cs = cs := by
  induction fuel with
  | zero =>
    intro cs hlen _
    have : cs = [] := by
      cases cs
      · rfl
      · simp at hlen
    subst this
    rfl
  | succ f ih =>
    intro cs hlen hnone
    cases cs with
    | nil => rfl
    | cons c rest =>
      rw [hasPlaceholder] at hnone
      simp only [Bool.or_eq_false_iff] at hnone
      obtain ⟨h1, h2⟩ := hnone
      have h1n : placeholderLen key (c :: rest) = none := by
        cases hpl : placeholderLen key (c :: rest)
        · rfl
        · rw [hpl] at h1
          simp at h1
      simp only [replaceScanF, h1n]
      rw [ih rest (by simp at hlen; omega) h2]

/-- `replaceVariables` of the utility module leaves a text unchanged when
none of the map's names has a placeholder in it. -/
theorem replaceVariablesUtil_no_match (text : String) (vars : List (String × String))
    (h : ∀ kv ∈ vars, hasPlaceholder kv.1.data text.data = false) :
    replaceVariablesUtil text vars = text := by
  induction vars with
  | nil => rfl
  | cons kv vs ih =>
    rw [replaceVariablesUtil, List.foldl_cons]
    have hstep : String.mk (replaceScan kv.1.data kv.2.data text.data) = text := by
      rw [replaceScan, replaceScanF_no_match kv.1.data kv.2.data text.data.length
        text.data le_rfl (h kv (List.mem_cons_self kv vs))]
    rw [hstep]
    exact ih (fun kv2 hm => h kv2 (List.mem_cons_of_mem kv hm))

theorem closeMatch_tail : closeMatch [' ', '\x7d', '\x7d'] = some 3 := by decide

theorem placeholderLen_exact (c : Char) (cs : List Char) (hc : isSpaceChar c = false) :
    placeholderLen (c :: cs)
      ('\x7b' :: '\x7b' :: ' ' :: ((c :: cs) ++ [' ', '\x7d', '\x7d'])) =
      some ((c :: cs).length + 6) := by
  rw [placeholderLen]
  have hws : wsCount (' ' :: ((c :: cs) ++ [' ', '\x7d', '\x7d'])) = 1 := by
    rw [wsCount]
    rw [List.cons_append]
    rw [List.takeWhile_cons]
    rw [List.takeWhile_cons]
    simp [hc]
    decide
  rw [hws]
  rw [tryKeyFrom]
  have hdrop : (' ' :: ((c :: cs) ++ [' ', '\x7d', '\x7d'])).drop (0 + 1) =
      (c :: cs) ++ [' ', '\x7d', '\x7d'] := rfl
  rw [hdrop, startsWithList_append]
  rw [List.drop_left]
  rw [closeMatch_tail]
  simp only [if_true, Option.map_some', Option.orElse]
  congr 1
  omega

theorem replaceScan_exact (c : Char) (cs value : List Char) (hc : isSpaceChar c = false) :
    replaceScan (c :: cs) value
      ('\x7b' :: '\x7b' :: ' ' :: ((c :: cs) ++ [' ', '\x7d', '\x7d'])) = value := by
  rw [replaceScan]
  have hlen : ('\x7b' :: '\x7b' :: ' ' :: ((c :: cs) ++ [' ', '\x7d', '\x7d'])).length =
      ((c :: cs).length + 5) + 1 := by
    simp
  rw [hlen]
  simp only [replaceScanF, placeholderLen_exact c cs hc]
  have hdropall : (('\x7b' :: '\x7b' :: ' ' :: ((c :: cs) ++ [' ', '\x7d', '\x7d']))).drop
      ((c :: cs).length + 6) = [] := by
    have h2 : ((c :: cs).length + 6) =
        ('\x7b' :: '\x7b' :: ' ' :: ((c :: cs) ++ [' ', '\x7d', '\x7d'])).length := by
      simp
    rw [h2]
    exact List.drop_length _
  rw [hdropall, replaceScanF_nil]
  exact List.append_nil value

theorem replaceVariablesUtil_subst (c : Char) (cs : List Char) (value : String)
    (hc : isSpaceChar c = false) :
    replaceVariablesUtil ("\x7b\x7b " ++ String.mk (c :: cs) ++ " \x7d\x7d")
      [(String.mk (c :: cs), value)] = value := by
  rw [replaceVariablesUtil, List.foldl_cons, List.foldl_nil]
  have hdata : ("\x7b\x7b " ++ String.mk (c :: cs) ++ " \x7d\x7d").data =
      '\x7b' :: '\x7b' :: ' ' :: ((c :: cs) ++ [' ', '\x7d', '\x7d']) := by
    rw [String.data_append, String.data_append]
    rfl
  rw [hdata]
  rw [show (String.mk (c :: cs)).data = c :: cs from rfl]
  rw [replaceScan_exact c cs value.data hc]

/-- C8 (counterexample): the send-email `replaceVariables` does NOT leave a
placeholder whose name is absent from the map verbatim — it replaces it
with the empty string. -/
theorem c8_counterexample :
    sendEmailReplaceVariables "\x7b\x7b name \x7d\x7d" [] = "" ∧
    sendEmailReplaceVariables "\x7b\x7b name \x7d\x7d" [] ≠ "\x7b\x7b name \x7d\x7d" := by
  refine ⟨by decide, by decide⟩

/-- C8 (amended): the utility-module `replaceVariables` substitutes each
known `\x7b\x7b name \x7d\x7d` with the mapped value and leaves a text
containing no known-name placeholder unchanged (so unknown names stay
verbatim, braces included); the send-email `replaceVariables`, by
contrast, replaces unknown-name placeholders with the empty string. -/
theorem c8_substitution_behaviour :
    (∀ (c : Char) (cs : List Char) (value : String), isSpaceChar c = false →
      replaceVariablesUtil ("\x7b\x7b " ++ String.mk (c :: cs) ++ " \x7d\x7d")
        [(String.mk (c :: cs), value)] = value) ∧
    (∀ (text : String) (vars : List (String × String)),
      (∀ kv ∈ vars, hasPlaceholder kv.1.data text.data = false) →
      replaceVariablesUtil text vars = text) ∧
    (replaceVariablesUtil "Dear \x7b\x7b name \x7d\x7d, you owe \x7b\x7b amount \x7d\x7d."
        [("amount", "$500")] = "Dear \x7b\x7b name \x7d\x7d, you owe $500.") ∧
    (sendEmailReplaceVariables "Dear \x7b\x7b name \x7d\x7d, you owe \x7b\x7b amount \x7d\x7d."
        [("amount", "$500")] = "Dear , you owe $500.") := by
  refine ⟨replaceVariablesUtil_subst, replaceVariablesUtil_no_match, by decide, by decide⟩

theorem c8_substitution_behaviour_witness :
    replaceVariablesUtil ("\x7b\x7b " ++ String.mk ('n' :: "ame".data) ++ " \x7d\x7d")
      [(String.mk ('n' :: "ame".data), "Ana")] = "Ana" ∧
    replaceVariablesUtil "no placeholders here" [("amount", "5")] =
      "no placeholders here" :=
  ⟨c8_substitution_behaviour.1 'n' "ame".data "Ana" (by decide),
   c8_substitution_behaviour.2.1 "no placeholders here" [("amount", "5")] (by decide)⟩
